import Mathlib

/-!
Verification development for the ConsentRight phase-1 consultation pipeline.

The definitions below are shallow embeddings of the Python source files
`validation.py`, `main.py` and `llm_handler.py`: strings are modelled as
Lean `String` / `List Char` (ASCII fragment of Python `str`), Python dicts
produced by `json.loads` are association lists with unique keys
(last-duplicate-wins on construction, as for Python dicts), fallible code
returns `Except`/`Option`, and the retry loop is explicit recursion over an
abstract per-attempt outcome function with rational time-units for delays.
-/

namespace ConsentRight

/-! Character and string helpers mirroring the Python primitives used by the
source (`str.strip`, `str.lower`, `in`, `re.sub(r'\s+', ' ', _)` and the
repetition regexes). -/

/-- The quote character. -/
def quoteChar : Char := Char.ofNat 34

/-- The apostrophe character. -/
def aposChar : Char := Char.ofNat 39

/-- The opening curly bracket. -/
def lbraceChar : Char := Char.ofNat 123

/-- The closing curly bracket. -/
def rbraceChar : Char := Char.ofNat 125

/-- ASCII whitespace recognised by Python `str.strip` / `\s` (ASCII fragment). -/
def isPySpace (c : Char) : Bool :=
  c = ' ' || c = Char.ofNat 9 || c = Char.ofNat 10 || c = Char.ofNat 11 ||
  c = Char.ofNat 12 || c = Char.ofNat 13

/-- Python `str.strip()` on the character list. -/
def pyStrip (l : List Char) : List Char :=
  ((l.dropWhile isPySpace).reverse.dropWhile isPySpace).reverse

/-- Python `str.lower()` (ASCII fragment). -/
def pyLower (l : List Char) : List Char := l.map Char.toLower

/-- `leads a b` holds when `a` is an initial segment of `b`. -/
def leads : List Char → List Char → Bool
  | [], _ => true
  | _ :: _, [] => false
  | a :: as, b :: bs => a = b && leads as bs

/-- `containsSub needle hay`: Python `needle in hay` on character lists. -/
def containsSub (needle : List Char) : List Char → Bool
  | [] => needle.isEmpty
  | c :: rest => leads needle (c :: rest) || containsSub needle rest

/-- Python `needle in hay` on strings. -/
def strContains (hay needle : String) : Bool := containsSub needle.data hay.data

/-- Length of the run of characters equal to `c` at the head of the list. -/
def runLen (c : Char) : List Char → Nat
  | [] => 0
  | d :: rest => if d = c then runLen c rest + 1 else 0

/-- Model of `re.search(r'(.)\1{n-2,}', _)`: some maximal run of at least `n`
identical consecutive characters exists.  `.` does not match a newline, so
newline runs are excluded, as in the Python regexes. -/
def hasRunGe (n : Nat) : List Char → Bool
  | [] => false
  | c :: rest =>
    (decide (c ≠ Char.ofNat 10) && decide (n ≤ 1 + runLen c rest)) || hasRunGe n rest

/-- Python `str.split()` (split on whitespace runs, dropping empty pieces);
`acc` holds the reversed current word. -/
def pySplitAux : List Char → List Char → List (List Char)
  | [], acc => if acc.isEmpty then [] else [acc.reverse]
  | c :: rest, acc =>
    if isPySpace c then
      if acc.isEmpty then pySplitAux rest [] else acc.reverse :: pySplitAux rest []
    else pySplitAux rest (c :: acc)

/-- Python `str.split()`. -/
def pySplit (l : List Char) : List (List Char) := pySplitAux l []

/-- Number of occurrences of the word `w` in the word list `ws`. -/
def countOcc (w : List Char) (ws : List (List Char)) : Nat :=
  ws.countP (fun x => decide (x = w))

/-- The word-repetition half of `has_excessive_repetition`: some word of
length `> 2` occurs more than 10 times in `text.lower().split()`. -/
def hasWordRep (text : List Char) : Bool :=
  let ws := pySplit (pyLower text)
  ws.any (fun w => decide (2 < w.length) && decide (10 < countOcc w ws))

/-- `validation.py` / `main.py` `has_excessive_repetition`: a run of at least
5 identical consecutive characters, or a word of length `> 2` repeated more
than 10 times (case-insensitive). -/
def has_excessive_repetition (text : List Char) : Bool :=
  hasRunGe 5 text || hasWordRep text

/-- `re.sub(r'\s+', ' ', _)`: collapse every whitespace run to one space.
The flag records whether the previous character was part of a run already
replaced by a space. -/
def collapseWsAux : Bool → List Char → List Char
  | _, [] => []
  | prevWs, c :: rest =>
    if isPySpace c then
      if prevWs then collapseWsAux true rest else ' ' :: collapseWsAux true rest
    else c :: collapseWsAux false rest

/-- `re.sub(r'\s+', ' ', _)` on a character list. -/
def collapseWs (l : List Char) : List Char := collapseWsAux false l

/-! Input validators.  There are three variants in the source:
`validation.validate_symptom_input`, `main._validate_symptom_input` and
`ConsultationLLM._validate_and_sanitize_input`. -/

/-- Punctuation accepted by `validation.py`'s character class
`[a-zA-Z0-9\s\.,;:!\-\'"()\[\]/+*&%$#@]` (note: no question mark). -/
def validationPunct : List Char :=
  ['.', ',', ';', ':', '!', '-', aposChar, quoteChar, '(', ')', '[', ']', '/',
   '+', '*', '&', '%', '$', '#', '@']

/-- A character accepted by `validation.py`'s allow-list regex. -/
def isAllowedValidation (c : Char) : Bool :=
  c.isAlpha || c.isDigit || isPySpace c || validationPunct.contains c

/-- A character accepted by `main.py`'s allow-list regex
`[a-zA-Z0-9\s\.,;:!?\-\'\"()\[\]\/\+\*&%$#@]` (includes the question mark). -/
def isAllowedMain (c : Char) : Bool :=
  isAllowedValidation c || c = '?'

/-- A character of the allow-list `[A-Za-z0-9 .,;:!?'"()[]/+*&%$#@-]` named by
the specification (spec section 4.1 step 5): letters, digits, the space
character, the listed punctuation and the question mark. -/
def isClaimChar (c : Char) : Bool :=
  c.isAlpha || c.isDigit || c = ' ' || validationPunct.contains c || c = '?'

/-- Result record of `validation.validate_symptom_input`. -/
structure ValidationResult where
  valid : Bool
  cleaned_input : String
  error_message : String
deriving DecidableEq, Repr

/-- Shallow embedding of `validation.validate_symptom_input`. -/
def validate_symptom_input (user_input : String) : ValidationResult :=
  let stripped := pyStrip user_input.data
  if stripped.length = 0 then
    ⟨false, "", "Please enter a description of your symptoms."⟩
  else if stripped.length < 5 then
    ⟨false, "", "Please provide a more detailed description (at least 5 characters)."⟩
  else if 2000 < stripped.length then
    ⟨false, "", "Description is too long. Keep it under 2000 characters."⟩
  else if has_excessive_repetition stripped then
    ⟨false, "", "Please avoid excessive repetition."⟩
  else if !stripped.all isAllowedValidation then
    ⟨false, "", "Use only standard characters."⟩
  else
    let cleaned := collapseWs stripped
    if !cleaned.any Char.isAlpha then
      ⟨false, "", "Include descriptive text about your symptoms."⟩
    else
      ⟨true, String.mk cleaned, ""⟩

/-- Result record of `main._validate_symptom_input` (adds `error_type`). -/
structure MainValidationResult where
  valid : Bool
  cleaned_input : String
  error_message : String
  error_type : String
deriving DecidableEq, Repr

/-- Shallow embedding of `main._validate_symptom_input` (the `main.py`
validator variant; its repetition helper `main._has_excessive_repetition`
coincides with `validation.has_excessive_repetition`). -/
def validate_symptom_input_main (user_input : String) : MainValidationResult :=
  let stripped := pyStrip user_input.data
  if stripped.length = 0 then
    ⟨false, "", "Please enter a description of your symptoms.", "empty"⟩
  else if stripped.length < 5 then
    ⟨false, "",
      "Please provide a more detailed description of your symptoms (at least 5 characters).",
      "too_short"⟩
  else if 2000 < stripped.length then
    ⟨false, "", "Symptom description is too long. Please keep it under 2000 characters.",
      "too_long"⟩
  else if has_excessive_repetition stripped then
    ⟨false, "", "Please avoid excessive repetition of characters.", "repeated_characters"⟩
  else if !stripped.all isAllowedMain then
    ⟨false, "", "Please use only standard characters (letters, numbers, and basic punctuation).",
      "invalid_characters"⟩
  else
    let cleaned := collapseWs stripped
    if !cleaned.any Char.isAlpha then
      ⟨false, "", "Please include descriptive text about your symptoms.",
        "no_meaningful_content"⟩
    else
      ⟨true, String.mk cleaned, "", ""⟩

/-- Characters kept by `ConsultationLLM._validate_and_sanitize_input`'s
sanitising substitution `re.sub(r'[^\w\s\.,;:!?\-\'\"()\[\]\/]', ' ', _)`:
word characters, whitespace and the listed punctuation. -/
def isLlmKept (c : Char) : Bool :=
  c.isAlpha || c.isDigit || c = '_' || isPySpace c ||
  ['.', ',', ';', ':', '!', '?', '-', aposChar, quoteChar, '(', ')', '[', ']', '/'].contains c

/-- The truncation step of `ConsultationLLM._validate_and_sanitize_input`:
input longer than 2000 characters becomes its first 1997 characters plus an
ellipsis (`cleaned[:1997] + "..."`). -/
def truncateLong (l : List Char) : List Char :=
  if 2000 < l.length then l.take 1997 ++ ['.', '.', '.'] else l

/-- The part of `ConsultationLLM._validate_and_sanitize_input` after the
length checks (source lines 175-197), operating on the possibly truncated
text: repetition check (runs of at least 6), meaningful-content check,
whitespace collapsing, removal of characters outside the kept set, and the
final minimum-length-3 check. -/
def sanitizeCleaned (cleaned : List Char) : Except String String :=
  if hasRunGe 6 cleaned then
    .error "Please avoid excessive repetition of characters in your symptom description"
  else if !cleaned.any Char.isAlpha then
    .error "Please include descriptive text about your symptoms"
  else
    let c1 := collapseWs cleaned
    let c2 := c1.map (fun c => if isLlmKept c then c else ' ')
    let c3 := pyStrip (collapseWs c2)
    if c3.length < 3 then
      .error "After cleaning, your symptom description is too short. Please provide more details."
    else
      .ok (String.mk c3)

/-- Shallow embedding of `ConsultationLLM._validate_and_sanitize_input`.
Note the differences from the `validation.py` variant: over-long input is
truncated to 1997 characters plus an ellipsis instead of rejected (and the
truncated text is what flows into the remaining checks), the repetition
regex is `(.)\1{5,}` (runs of at least 6), and there is no word-repetition
check. -/
def validate_and_sanitize_input (symptoms : String) : Except String String :=
  if symptoms.data.isEmpty then
    .error "Symptoms must be provided as a non-empty string"
  else
    let stripped := pyStrip symptoms.data
    if stripped.length = 0 then
      .error "Symptoms description cannot be empty"
    else if stripped.length < 5 then
      .error "Please provide a more detailed description of your symptoms"
    else
      sanitizeCleaned (truncateLong stripped)

/-! JSON values and a model of Python `json.loads`, as used by
`ConsultationLLM._parse_response`.  Numbers keep their raw token so that no
floating-point semantics is needed; objects become association lists with
unique keys (duplicate keys overwrite, as for Python dicts). -/

/-- A parsed JSON value (the result of `json.loads`). -/
inductive JValue where
  | jstr (s : String)
  | jnum (tok : String)
  | jbool (b : Bool)
  | jnull
  | jarr (elems : List JValue)
  | jobj (fields : List (String × JValue))
deriving Repr

/-- Insert or overwrite a key in an association list (Python dict update). -/
def insertKV : List (String × JValue) → String → JValue → List (String × JValue)
  | [], k, v => [(k, v)]
  | (k1, v1) :: rest, k, v =>
    if k1 = k then (k, v) :: rest else (k1, v1) :: insertKV rest k v

/-- Look a key up in an association list (Python dict indexing). -/
def lookupKV : List (String × JValue) → String → Option JValue
  | [], _ => none
  | (k1, v1) :: rest, k => if k1 = k then some v1 else lookupKV rest k

/-- JSON whitespace (the characters `json.loads` skips between tokens). -/
def isJsonWs (c : Char) : Bool :=
  c = ' ' || c = Char.ofNat 9 || c = Char.ofNat 10 || c = Char.ofNat 13

/-- Value of a hexadecimal digit. -/
def hexVal (c : Char) : Option Nat :=
  if c.isDigit then some (c.toNat - 48)
  else if 'a' ≤ c && c ≤ 'f' then some (c.toNat - 87)
  else if 'A' ≤ c && c ≤ 'F' then some (c.toNat - 55)
  else none

/-- Single-character JSON string escapes. -/
def escChar (e : Char) : Option Char :=
  if e = quoteChar then some quoteChar
  else if e = '\\' then some '\\'
  else if e = '/' then some '/'
  else if e = 'b' then some (Char.ofNat 8)
  else if e = 'f' then some (Char.ofNat 12)
  else if e = 'n' then some (Char.ofNat 10)
  else if e = 'r' then some (Char.ofNat 13)
  else if e = 't' then some (Char.ofNat 9)
  else none

/-- Parse the body of a JSON string after the opening quote; `acc` holds the
reversed characters read so far.  Unescaped control characters are rejected,
as by `json.loads` in strict mode. -/
def parseStringBody : List Char → List Char → Option (String × List Char)
  | [], _ => none
  | c :: rest, acc =>
    if c = quoteChar then some (String.mk acc.reverse, rest)
    else if c = '\\' then
      match rest with
      | [] => none
      | 'u' :: h1 :: h2 :: h3 :: h4 :: rest2 =>
        match hexVal h1, hexVal h2, hexVal h3, hexVal h4 with
        | some a, some b, some c2, some d =>
          parseStringBody rest2 (Char.ofNat (((a * 16 + b) * 16 + c2) * 16 + d) :: acc)
        | _, _, _, _ => none
      | e :: rest2 =>
        match escChar e with
        | some ch => parseStringBody rest2 (ch :: acc)
        | none => none
    else if c.toNat < 32 then none
    else parseStringBody rest (c :: acc)

/-- Read a JSON number token (sign, integer part, optional fraction and
exponent), returning the token characters and the remaining input. -/
def parseNumberToken (l : List Char) : Option (List Char × List Char) :=
  let signAndRest : List Char × List Char :=
    match l with
    | '-' :: r => (['-'], r)
    | _ => ([], l)
  let sign := signAndRest.1
  let l1 := signAndRest.2
  match l1 with
  | [] => none
  | d :: _ =>
    if !d.isDigit then none
    else
      let ipRest : List Char × List Char :=
        if d = '0' then ([d], l1.tail)
        else (l1.takeWhile Char.isDigit, l1.dropWhile Char.isDigit)
      let ip := ipRest.1
      let r2 := ipRest.2
      let fpRest : List Char × List Char :=
        match r2 with
        | '.' :: rf =>
          let ds := rf.takeWhile Char.isDigit
          if ds.isEmpty then ([], r2) else ('.' :: ds, rf.dropWhile Char.isDigit)
        | _ => ([], r2)
      let fp := fpRest.1
      let r3 := fpRest.2
      let epRest : List Char × List Char :=
        match r3 with
        | e :: re =>
          if e = 'e' || e = 'E' then
            let esRest : List Char × List Char :=
              match re with
              | s :: rs => if s = '+' || s = '-' then ([s], rs) else ([], re)
              | [] => ([], re)
            let ds := esRest.2.takeWhile Char.isDigit
            if ds.isEmpty then ([], r3)
            else (e :: (esRest.1 ++ ds), esRest.2.dropWhile Char.isDigit)
          else ([], r3)
        | [] => ([], r3)
      some (sign ++ ip ++ fp ++ epRest.1, epRest.2)

mutual

/-- Parse one JSON value, fuelled; each nesting level and each aggregate
member consumes one unit of fuel, and every step consumes input, so fuel
`length + 1` always suffices. -/
def parseValue : Nat → List Char → Option (JValue × List Char)
  | 0, _ => none
  | fuel + 1, l =>
    match l.dropWhile isJsonWs with
    | [] => none
    | c :: rest =>
      if c = quoteChar then
        match parseStringBody rest [] with
        | some (s, r) => some (.jstr s, r)
        | none => none
      else if c = lbraceChar then
        match rest.dropWhile isJsonWs with
        | d :: r2 => if d = rbraceChar then some (.jobj [], r2) else parseMembers fuel rest []
        | [] => none
      else if c = '[' then
        match rest.dropWhile isJsonWs with
        | d :: r2 => if d = ']' then some (.jarr [], r2) else parseElems fuel rest []
        | [] => none
      else if leads "true".data (c :: rest) then some (.jbool true, rest.drop 3)
      else if leads "false".data (c :: rest) then some (.jbool false, rest.drop 4)
      else if leads "null".data (c :: rest) then some (.jnull, rest.drop 3)
      else if leads "NaN".data (c :: rest) then some (.jnum "NaN", rest.drop 2)
      else if leads "Infinity".data (c :: rest) then some (.jnum "Infinity", rest.drop 7)
      else if leads "-Infinity".data (c :: rest) then some (.jnum "-Infinity", rest.drop 8)
      else
        match parseNumberToken (c :: rest) with
        | some (tok, r) => some (.jnum (String.mk tok), r)
        | none => none

/-- Parse the members of a non-empty JSON object (after the opening brace),
accumulating them with dict semantics. -/
def parseMembers : Nat → List Char → List (String × JValue) → Option (JValue × List Char)
  | 0, _, _ => none
  | fuel + 1, l, acc =>
    match l.dropWhile isJsonWs with
    | c :: rest =>
      if c = quoteChar then
        match parseStringBody rest [] with
        | some (k, r1) =>
          match r1.dropWhile isJsonWs with
          | ':' :: r2 =>
            match parseValue fuel r2 with
            | some (v, r3) =>
              match r3.dropWhile isJsonWs with
              | ',' :: r4 => parseMembers fuel r4 (insertKV acc k v)
              | d :: r4 =>
                if d = rbraceChar then some (.jobj (insertKV acc k v), r4) else none
              | [] => none
            | none => none
          | _ => none
        | none => none
      else none
    | [] => none

/-- Parse the elements of a non-empty JSON array (after the opening bracket). -/
def parseElems : Nat → List Char → List JValue → Option (JValue × List Char)
  | 0, _, _ => none
  | fuel + 1, l, acc =>
    match parseValue fuel l with
    | some (v, r1) =>
      match r1.dropWhile isJsonWs with
      | ',' :: r2 => parseElems fuel r2 (acc ++ [v])
      | d :: r2 => if d = ']' then some (.jarr (acc ++ [v]), r2) else none
      | [] => none
    | none => none

end

/-- Model of Python `json.loads`: parse one value and require only
whitespace to remain (otherwise Python raises "Extra data"). -/
def jsonLoads (l : List Char) : Option JValue :=
  match parseValue (l.length + 1) l with
  | some (v, rest) => if (rest.dropWhile isJsonWs).isEmpty then some v else none
  | none => none

/-! Model of `ConsultationLLM._parse_response`. -/

/-- Index of the first occurrence of `c` (Python `str.find`, `none` for -1). -/
def findCharIdx (c : Char) : List Char → Option Nat
  | [] => none
  | d :: rest => if d = c then some 0 else (findCharIdx c rest).map (· + 1)

/-- Index of the last occurrence of `c` (Python `str.rfind`, `none` for -1). -/
def rfindCharIdx (c : Char) (l : List Char) : Option Nat :=
  (findCharIdx c l.reverse).map (fun i => l.length - 1 - i)

/-- Zero test on a raw JSON number token: Python truthiness of the number is
false exactly when its mantissa has digits that are all `0`. -/
def numIsZero (tok : String) : Bool :=
  let mant := tok.data.takeWhile (fun c => c ≠ 'e' && c ≠ 'E')
  mant.any Char.isDigit && mant.all (fun c => !c.isDigit || c = '0')

/-- Python truthiness of a parsed JSON value (`not parsed_data[field]`). -/
def truthy : JValue → Bool
  | .jstr s => !s.data.isEmpty
  | .jnum t => !numIsZero t
  | .jbool b => b
  | .jnull => false
  | .jarr xs => !xs.isEmpty
  | .jobj fs => !fs.isEmpty

/-- The required-field test of `_parse_response`:
`field in parsed_data and parsed_data[field]` (present and truthy). -/
def requiredOk (fields : List (String × JValue)) (name : String) : Bool :=
  match lookupKV fields name with
  | none => false
  | some v => truthy v

/-- The urgency test of `_parse_response`:
`parsed_data['urgency'] in ['High', 'Medium', 'Low']`. -/
def urgencyValid : Option JValue → Bool
  | some (.jstr u) => u = "High" || u = "Medium" || u = "Low"
  | _ => false

/-- The extraction stage of `_parse_response`: strip the raw response, slice
from the first opening brace to the last closing brace, and run `json.loads`
on the slice. -/
def extractJson (response : String) : Except String JValue :=
  let rc := pyStrip response.data
  match findCharIdx lbraceChar rc, rfindCharIdx rbraceChar rc with
  | some si, some ei =>
    match jsonLoads ((rc.take (ei + 1)).drop si) with
    | some v => .ok v
    | none => .error "Failed to parse LLM response as JSON"
  | _, _ => .error "Response validation failed: No JSON structure found in response"

/-- The urgency-coercion step of `_parse_response`: an urgency outside
High/Medium/Low is overwritten with `"Medium"`. -/
def coerceUrgency (fields : List (String × JValue)) : List (String × JValue) :=
  if urgencyValid (lookupKV fields "urgency") then fields
  else insertKV fields "urgency" (.jstr "Medium")

/-- The optional-field step of `_parse_response` for `alternative`: default
to the empty string when missing. -/
def fillAlternative (fields : List (String × JValue)) : List (String × JValue) :=
  if (lookupKV fields "alternative").isSome then fields
  else insertKV fields "alternative" (.jstr "")

/-- The optional-field step of `_parse_response` for `additional_notes`:
default to the empty string when missing. -/
def fillNotes (fields : List (String × JValue)) : List (String × JValue) :=
  if (lookupKV fields "additional_notes").isSome then fields
  else insertKV fields "additional_notes" (.jstr "")

/-- Both optional-field steps of `_parse_response`, in source order. -/
def fillOptional (fields : List (String × JValue)) : List (String × JValue) :=
  fillNotes (fillAlternative fields)

/-- The validation stage of `_parse_response`: required fields must be
present and truthy (otherwise the whole parse fails — no placeholder is
substituted), an urgency outside High/Medium/Low is overwritten with
`"Medium"`, and missing optional fields default to the empty string. -/
def validateParsed (fields : List (String × JValue)) : Except String (List (String × JValue)) :=
  if !requiredOk fields "specialist" then
    .error "Response validation failed: Missing or empty required field: specialist"
  else if !requiredOk fields "reasoning" then
    .error "Response validation failed: Missing or empty required field: reasoning"
  else if !requiredOk fields "urgency" then
    .error "Response validation failed: Missing or empty required field: urgency"
  else
    .ok (fillOptional (coerceUrgency fields))

/-- Shallow embedding of `ConsultationLLM._parse_response`.  The slice from
the first `\x7b` to the last `\x7d` is handed to `json.loads` exactly once:
a parse failure is fatal, with no backward-scan recovery. -/
def parse_response (response : String) : Except String (List (String × JValue)) :=
  match extractJson response with
  | .error e => .error e
  | .ok (.jobj fields) => validateParsed fields
  | .ok _ => .error "Response validation failed"

/-! Model of `ConsultationLLM._should_retry_error` and
`ConsultationLLM._retry_with_backoff`.  The external call is abstracted as a
function from the attempt index to that attempt's outcome; delays are in
time-units as rational numbers. -/

/-- The retryable error markers, in source order. -/
def retryable_errors : List String :=
  ["timeout", "connection", "network", "rate limit", "quota exceeded",
   "service unavailable", "internal server error", "bad gateway", "gateway timeout"]

/-- The non-retryable error markers, in source order. -/
def non_retryable_errors : List String :=
  ["authentication", "unauthorized", "invalid api key", "forbidden", "access denied"]

/-- Does the lower-cased error text contain one of the markers? -/
def matchesAnyMarker (markers : List String) (errMsg : String) : Bool :=
  markers.any (fun m => strContains (String.mk (pyLower errMsg.data)) m)

/-- Shallow embedding of `ConsultationLLM._should_retry_error`: the
retryable markers are consulted first, then the non-retryable markers, and
unknown errors default to retryable. -/
def should_retry_error (errMsg : String) : Bool :=
  if matchesAnyMarker retryable_errors errMsg then true
  else if matchesAnyMarker non_retryable_errors errMsg then false
  else true

/-- Outcome of `_retry_with_backoff`: the final result, the number of
attempts that invoked the call, and the backoff delays slept through, in
order. -/
structure RetryResult (α : Type) where
  result : Except String α
  attemptsMade : Nat
  delays : List ℚ
deriving Repr

/-- The message of the exception raised when the retry loop gives up
(`Processing failed after {max_retries + 1} attempts. Last error: ...`). -/
def finalFail (maxRetries : Nat) (last : Option String) : String :=
  "Processing failed after " ++ toString (maxRetries + 1) ++
  " attempts. Last error: " ++ (match last with | some e => e | none => "None")

/-- The delay slept before retry attempt `attempt`:
`base_delay * (2 ** (attempt - 1))`. -/
def backoffDelay (baseDelay : ℚ) (attempt : Nat) : ℚ :=
  baseDelay * 2 ^ (attempt - 1)

/-- One traversal of the `for attempt in range(max_retries + 1)` loop of
`_retry_with_backoff`, from attempt index `attempt` with `fuel` loop
iterations remaining; `last` is the last exception seen and `delays` the
reversed delays slept so far. -/
def retryFrom {α : Type} (call : Nat → Except String α) (maxRetries : Nat) (baseDelay : ℚ) :
    Nat → Nat → Option String → List ℚ → RetryResult α
  | 0, attempt, last, delays => ⟨.error (finalFail maxRetries last), attempt, delays.reverse⟩
  | fuel + 1, attempt, _, delays =>
    let delays2 := if 0 < attempt then backoffDelay baseDelay attempt :: delays else delays
    match call attempt with
    | .ok v => ⟨.ok v, attempt + 1, delays2.reverse⟩
    | .error e =>
      if should_retry_error e && decide (attempt < maxRetries) then
        retryFrom call maxRetries baseDelay fuel (attempt + 1) (some e) delays2
      else
        ⟨.error (finalFail maxRetries (some e)), attempt + 1, delays2.reverse⟩

/-- Shallow embedding of `ConsultationLLM._retry_with_backoff`. -/
def retry_with_backoff {α : Type} (call : Nat → Except String α)
    (maxRetries : Nat) (baseDelay : ℚ) : RetryResult α :=
  retryFrom call maxRetries baseDelay (maxRetries + 1) 0 none []

/-! Model of `ConsultationLLM.fallback_recommendation` and
`ConsultationLLM._assess_basic_urgency`. -/

/-- The high-urgency keywords, in source order. -/
def high_urgency_keywords : List String :=
  ["chest pain", "difficulty breathing", "shortness of breath", "severe pain",
   "bleeding", "unconscious", "seizure", "stroke", "heart attack", "emergency",
   "severe headache", "high fever", "vomiting blood", "severe abdominal pain"]

/-- The low-urgency keywords, in source order. -/
def low_urgency_keywords : List String :=
  ["mild", "occasional", "minor", "slight", "small rash", "dry skin",
   "minor headache", "light cough"]

/-- Shallow embedding of `ConsultationLLM._assess_basic_urgency`: the
keyword loops are substring scans on the lower-cased text, exactly as the
marker matching of `_should_retry_error`. -/
def assess_basic_urgency (symptoms : String) : String :=
  if symptoms.data.isEmpty then "Medium"
  else if matchesAnyMarker high_urgency_keywords symptoms then "High"
  else if matchesAnyMarker low_urgency_keywords symptoms then "Low"
  else "Medium"

/-- Shallow embedding of `ConsultationLLM.fallback_recommendation`. -/
def fallback_recommendation (symptoms : String) : List (String × JValue) :=
  [("specialist", .jstr "General Physician"),
   ("reasoning", .jstr "Unable to process symptoms due to technical issues. A general physician can provide initial evaluation and refer you to the appropriate specialist if needed."),
   ("urgency", .jstr (assess_basic_urgency symptoms)),
   ("alternative", .jstr "Emergency Medicine (if symptoms are severe or life-threatening)"),
   ("additional_notes", .jstr "Please seek immediate medical attention if you experience severe symptoms such as chest pain, difficulty breathing, severe bleeding, or loss of consciousness.")]

/-! Concrete inputs used by witnesses and counterexamples. -/

/-- A 2001-character input (exceeds the 2000-character limit). -/
def longSymptomText : String := String.mk (List.replicate 2001 'a')

/-- An input repeating the word `pain` eleven times. -/
def repeatedWordText : String :=
  "pain pain pain pain pain pain pain pain pain pain pain"

/-! Helper lemmas. -/

/-- Collapsing whitespace never lengthens a string. -/
theorem collapseWsAux_length_le (l : List Char) :
    ∀ b, (collapseWsAux b l).length ≤ l.length := by
  induction l with
  | nil => intro b; simp [collapseWsAux]
  | cons c rest ih =>
    intro b
    simp only [collapseWsAux]
    split_ifs
    · exact Nat.le_succ_of_le (ih true)
    · simpa using ih true
    · simpa using ih false

/-- Collapsing whitespace never lengthens a string. -/
theorem collapseWs_length_le (l : List Char) : (collapseWs l).length ≤ l.length :=
  collapseWsAux_length_le l false

/-- Stripping never lengthens a string. -/
theorem pyStrip_length_le (l : List Char) : (pyStrip l).length ≤ l.length := by
  have h1 := (List.dropWhile_sublist (l := l) isPySpace).length_le
  have h2 :=
    (List.dropWhile_sublist (l := (l.dropWhile isPySpace).reverse) isPySpace).length_le
  simp only [pyStrip, List.length_reverse]
  simp only [List.length_reverse] at h2
  omega

/-- Characters of the stripped string come from the original string. -/
theorem mem_pyStrip {c : Char} {l : List Char} (h : c ∈ pyStrip l) : c ∈ l := by
  simp only [pyStrip, List.mem_reverse] at h
  have h2 := List.dropWhile_subset isPySpace h
  rw [List.mem_reverse] at h2
  exact List.dropWhile_subset isPySpace h2

/-- A character predicate holding on a string also holds on its strip. -/
theorem all_pyStrip {p : Char → Bool} {l : List Char} (h : l.all p = true) :
    (pyStrip l).all p = true := by
  rw [List.all_eq_true] at h ⊢
  exact fun c hc => h c (mem_pyStrip hc)

/-- Looking up the key just inserted yields its value. -/
theorem lookupKV_insertKV_self (fs : List (String × JValue)) (k : String) (v : JValue) :
    lookupKV (insertKV fs k v) k = some v := by
  induction fs with
  | nil => simp [insertKV, lookupKV]
  | cons p rest ih =>
    obtain ⟨k1, v1⟩ := p
    by_cases h : k1 = k
    · simp [insertKV, h, lookupKV]
    · simp [insertKV, h, lookupKV, ih]

/-- Insertion does not disturb lookups of other keys. -/
theorem lookupKV_insertKV_ne (fs : List (String × JValue)) (k k2 : String) (v : JValue)
    (h : k ≠ k2) : lookupKV (insertKV fs k v) k2 = lookupKV fs k2 := by
  induction fs with
  | nil => simp [insertKV, lookupKV, h]
  | cons p rest ih =>
    obtain ⟨k1, v1⟩ := p
    by_cases h1 : k1 = k
    · subst h1
      simp [insertKV, lookupKV, h, Ne.symm h]
    · by_cases h2 : k1 = k2 <;> simp [insertKV, h1, lookupKV, h2, ih, Ne.symm h]

/-- `requiredOk` unpacked: the field is present with a truthy value. -/
theorem requiredOk_iff (fs : List (String × JValue)) (n : String) :
    requiredOk fs n = true ↔ ∃ v, lookupKV fs n = some v ∧ truthy v = true := by
  unfold requiredOk
  cases h : lookupKV fs n <;> simp

/-- The urgency-coercion step leaves other keys unchanged. -/
theorem lookupKV_coerceUrgency_other (fs : List (String × JValue)) (k : String)
    (h : k ≠ "urgency") : lookupKV (coerceUrgency fs) k = lookupKV fs k := by
  unfold coerceUrgency
  split_ifs
  · rfl
  · exact lookupKV_insertKV_ne fs "urgency" k _ (fun he => h he.symm)

/-- After the urgency-coercion step the urgency is High, Medium or Low. -/
theorem coerceUrgency_result (fs : List (String × JValue)) :
    lookupKV (coerceUrgency fs) "urgency" = some (.jstr "High") ∨
    lookupKV (coerceUrgency fs) "urgency" = some (.jstr "Medium") ∨
    lookupKV (coerceUrgency fs) "urgency" = some (.jstr "Low") := by
  unfold coerceUrgency
  split_ifs with h
  · unfold urgencyValid at h
    cases hl : lookupKV fs "urgency" with
    | none => rw [hl] at h; simp at h
    | some v =>
      rw [hl] at h
      cases v with
      | jstr u =>
        simp only [Bool.or_eq_true, decide_eq_true_eq] at h
        rcases h with (h | h) | h <;> subst h <;> simp [hl]
      | jnum t => simp at h
      | jbool b => simp at h
      | jnull => simp at h
      | jarr xs => simp at h
      | jobj fs2 => simp at h
  · simp [lookupKV_insertKV_self]

/-- If the urgency was already valid, the coercion step is the identity. -/
theorem coerceUrgency_valid (fs : List (String × JValue))
    (h : urgencyValid (lookupKV fs "urgency") = true) : coerceUrgency fs = fs := by
  simp [coerceUrgency, h]

/-- If the urgency was not valid, the coercion step overwrites it. -/
theorem coerceUrgency_invalid (fs : List (String × JValue))
    (h : urgencyValid (lookupKV fs "urgency") = false) :
    coerceUrgency fs = insertKV fs "urgency" (.jstr "Medium") := by
  simp [coerceUrgency, h]

/-- The `alternative` fill leaves other keys unchanged. -/
theorem lookupKV_fillAlternative_other (fs : List (String × JValue)) (k : String)
    (h : k ≠ "alternative") : lookupKV (fillAlternative fs) k = lookupKV fs k := by
  unfold fillAlternative
  split_ifs
  · rfl
  · exact lookupKV_insertKV_ne fs "alternative" k _ (fun he => h he.symm)

/-- The `additional_notes` fill leaves other keys unchanged. -/
theorem lookupKV_fillNotes_other (fs : List (String × JValue)) (k : String)
    (h : k ≠ "additional_notes") : lookupKV (fillNotes fs) k = lookupKV fs k := by
  unfold fillNotes
  split_ifs
  · rfl
  · exact lookupKV_insertKV_ne fs "additional_notes" k _ (fun he => h he.symm)

/-- The optional-field steps leave other keys unchanged. -/
theorem lookupKV_fillOptional_other (fs : List (String × JValue)) (k : String)
    (h1 : k ≠ "alternative") (h2 : k ≠ "additional_notes") :
    lookupKV (fillOptional fs) k = lookupKV fs k := by
  unfold fillOptional
  rw [lookupKV_fillNotes_other _ _ h2, lookupKV_fillAlternative_other _ _ h1]

/-- After the optional-field steps, `alternative` is present. -/
theorem fillOptional_alternative_isSome (fs : List (String × JValue)) :
    (lookupKV (fillOptional fs) "alternative").isSome = true := by
  unfold fillOptional
  rw [lookupKV_fillNotes_other _ _ (by decide)]
  unfold fillAlternative
  split_ifs with h
  · exact h
  · simp [lookupKV_insertKV_self]

/-- After the optional-field steps, `additional_notes` is present. -/
theorem fillOptional_notes_isSome (fs : List (String × JValue)) :
    (lookupKV (fillOptional fs) "additional_notes").isSome = true := by
  unfold fillOptional fillNotes
  split_ifs with h
  · exact h
  · simp [lookupKV_insertKV_self]

/-- When the required fields pass, `validateParsed` succeeds with the
coerced, filled record. -/
theorem validateParsed_eq_ok (fs : List (String × JValue))
    (h1 : requiredOk fs "specialist" = true) (h2 : requiredOk fs "reasoning" = true)
    (h3 : requiredOk fs "urgency" = true) :
    validateParsed fs = .ok (fillOptional (coerceUrgency fs)) := by
  simp [validateParsed, h1, h2, h3]

/-- Inversion: a successful `validateParsed` implies the required fields
passed and describes the output record. -/
theorem validateParsed_ok_inv (fs out : List (String × JValue))
    (h : validateParsed fs = .ok out) :
    requiredOk fs "specialist" = true ∧ requiredOk fs "reasoning" = true ∧
    requiredOk fs "urgency" = true ∧ out = fillOptional (coerceUrgency fs) := by
  by_cases h1 : requiredOk fs "specialist" = true
  · by_cases h2 : requiredOk fs "reasoning" = true
    · by_cases h3 : requiredOk fs "urgency" = true
      · rw [validateParsed_eq_ok fs h1 h2 h3] at h
        exact ⟨h1, h2, h3, (Except.ok.inj h).symm⟩
      · rw [Bool.not_eq_true] at h3
        simp [validateParsed, h1, h2, h3] at h
    · rw [Bool.not_eq_true] at h2
      simp [validateParsed, h1, h2] at h
  · rw [Bool.not_eq_true] at h1
    simp [validateParsed, h1] at h

/-- Inversion: a successful `parse_response` factors through a parsed
object record and `validateParsed`. -/
theorem parse_response_ok_inv (response : String) (out : List (String × JValue))
    (h : parse_response response = .ok out) :
    ∃ fs, extractJson response = .ok (.jobj fs) ∧ validateParsed fs = .ok out := by
  unfold parse_response at h
  cases hx : extractJson response with
  | error e => rw [hx] at h; exact absurd h (by simp)
  | ok v =>
    rw [hx] at h
    cases v with
    | jobj fs => exact ⟨fs, rfl, h⟩
    | jstr s => exact absurd h (by simp)
    | jnum t => exact absurd h (by simp)
    | jbool b => exact absurd h (by simp)
    | jnull => exact absurd h (by simp)
    | jarr xs => exact absurd h (by simp)

/-- The retry loop makes at most one attempt per unit of loop fuel. -/
theorem retryFrom_attemptsMade_le {α : Type} (call : Nat → Except String α)
    (maxRetries : Nat) (baseDelay : ℚ) (fuel : Nat) :
    ∀ attempt last delays,
      (retryFrom call maxRetries baseDelay fuel attempt last delays).attemptsMade ≤
        attempt + fuel := by
  induction fuel with
  | zero => intro attempt last delays; simp [retryFrom]
  | succ n ih =>
    intro attempt last delays
    simp only [retryFrom]
    cases hc : call attempt with
    | ok v =>
      simp only [hc]
      show attempt + 1 ≤ attempt + (n + 1)
      omega
    | error e =>
      simp only [hc]
      by_cases h : (should_retry_error e && decide (attempt < maxRetries)) = true
      · rw [if_pos h]
        exact le_trans (ih (attempt + 1) (some e) _) (by omega)
      · rw [if_neg h]
        show attempt + 1 ≤ attempt + (n + 1)
        omega

/-! Claim C3. -/

/-- Claim C3 as stated is false: the error text `"connection forbidden"`
contains the non-retryable marker `"forbidden"`, yet `_should_retry_error`
classifies it as retryable (the retryable marker `"connection"` is checked
first), and a Requester whose first attempt fails with it does not abort
immediately — it retries and succeeds on the second attempt. -/
theorem C3_counterexample :
    matchesAnyMarker non_retryable_errors "connection forbidden" = true ∧
    should_retry_error "connection forbidden" = true ∧
    (retry_with_backoff
        (fun k => if k = 0 then .error "connection forbidden" else .ok 1) 3 1).result =
      .ok 1 ∧
    (retry_with_backoff
        (fun k => if k = 0 then .error "connection forbidden" else .ok 1) 3 1).attemptsMade =
      2 :=
  ⟨by decide, by decide, rfl, rfl⟩

/-- Claim C3, amended: an error is non-retryable only when its lower-cased
text contains a non-retryable marker and none of the retryable markers
(the retryable list takes precedence); an error matching neither list
defaults to retryable; and the Requester, given a first attempt failing with
a non-retryable error, aborts after that single attempt with no delays. -/
theorem C3_error_classification :
    (∀ s : String, matchesAnyMarker non_retryable_errors s = true →
      matchesAnyMarker retryable_errors s = false → should_retry_error s = false) ∧
    (∀ s : String, matchesAnyMarker retryable_errors s = false →
      matchesAnyMarker non_retryable_errors s = false → should_retry_error s = true) ∧
    (∀ (α : Type) (call : Nat → Except String α) (e : String),
      call 0 = .error e → should_retry_error e = false →
      retry_with_backoff call 3 1 = ⟨.error (finalFail 3 (some e)), 1, []⟩) := by
  refine ⟨?_, ?_, ?_⟩
  · intro s hn hr
    simp [should_retry_error, hn, hr]
  · intro s hr hn
    simp [should_retry_error, hn, hr]
  · intro α call e hc hs
    simp [retry_with_backoff, retryFrom, hc, hs]

/-- Witness for the amended claim C3 at concrete inputs. -/
theorem C3_error_classification_witness :
    should_retry_error "access denied" = false ∧
    should_retry_error "some strange glitch" = true ∧
    retry_with_backoff (fun _ => (.error "invalid api key" : Except String Nat)) 3 1 =
      ⟨.error (finalFail 3 (some "invalid api key")), 1, []⟩ :=
  ⟨C3_error_classification.1 "access denied" (by decide) (by decide),
   C3_error_classification.2.1 "some strange glitch" (by decide) (by decide),
   C3_error_classification.2.2 Nat (fun _ => .error "invalid api key") "invalid api key"
     rfl (C3_error_classification.1 "invalid api key" (by decide) (by decide))⟩

/-! Claim C4. -/

/-- Claim C4: the Requester makes at most 4 total attempts; a call failing
retryably on the first two attempts and succeeding on the third returns the
success result after exactly 2 retries (3 attempts) with delays 1.0 and 2.0
time-units; and when every attempt fails retryably it raises an error
carrying the last underlying error, after delays 1.0, 2.0 and 4.0. -/
theorem C4_retry_policy :
    (∀ (α : Type) (call : Nat → Except String α),
      (retry_with_backoff call 3 1).attemptsMade ≤ 4) ∧
    (∀ (α : Type) (call : Nat → Except String α) (v : α) (e0 e1 : String),
      call 0 = .error e0 → call 1 = .error e1 → call 2 = .ok v →
      should_retry_error e0 = true → should_retry_error e1 = true →
      retry_with_backoff call 3 1 = ⟨.ok v, 3, [1, 2]⟩) ∧
    (∀ (α : Type) (call : Nat → Except String α) (err : Nat → String),
      (∀ k, k ≤ 3 → call k = .error (err k)) →
      (∀ k, k ≤ 3 → should_retry_error (err k) = true) →
      retry_with_backoff call 3 1 =
        ⟨.error (finalFail 3 (some (err 3))), 4, [1, 2, 4]⟩) := by
  refine ⟨?_, ?_, ?_⟩
  · intro α call
    exact retryFrom_attemptsMade_le call 3 1 4 0 none []
  · intro α call v e0 e1 h0 h1 h2 hr0 hr1
    simp only [retry_with_backoff, retryFrom, h0, h1, h2, hr0, hr1, backoffDelay]
    norm_num
  · intro α call err hc hr
    simp only [retry_with_backoff, retryFrom, hc 0 (by omega), hc 1 (by omega),
      hc 2 (by omega), hc 3 (by omega), hr 0 (by omega), hr 1 (by omega),
      hr 2 (by omega), hr 3 (by omega), backoffDelay]
    norm_num

/-- Witness for claim C4 at concrete inputs. -/
theorem C4_retry_policy_witness :
    retry_with_backoff
        (fun k => if k < 2 then .error "connection timeout" else .ok 42) 3 1 =
      ⟨.ok 42, 3, [1, 2]⟩ ∧
    retry_with_backoff (fun _ => (.error "gateway timeout" : Except String Nat)) 3 1 =
      ⟨.error (finalFail 3 (some "gateway timeout")), 4, [1, 2, 4]⟩ ∧
    (retry_with_backoff (fun _ => (.ok 0 : Except String Nat)) 3 1).attemptsMade ≤ 4 :=
  ⟨C4_retry_policy.2.1 Nat _ 42 "connection timeout" "connection timeout"
     rfl rfl rfl (by decide) (by decide),
   C4_retry_policy.2.2 Nat _ (fun _ => "gateway timeout")
     (fun _ _ => rfl)
     (fun _ _ => by show should_retry_error "gateway timeout" = true; decide),
   C4_retry_policy.1 Nat _⟩

/-- A string with an empty character list is the empty string. -/
theorem string_eq_empty_of_data_nil {s : String} (hd : s.data = []) : s = "" := by
  obtain ⟨d⟩ := s
  have hd2 : d = [] := hd
  rw [hd2]

/-! Claim C8. -/

/-- Claim C8: the fallback generator is a total function producing the
specialist `"General Physician"`; its urgency is `"High"` whenever the
lower-cased symptom text contains a high-urgency phrase, otherwise `"Low"`
whenever it contains a low-urgency phrase, and `"Medium"` otherwise. -/
theorem C8_fallback_generator (s : String) :
    lookupKV (fallback_recommendation s) "specialist" =
      some (.jstr "General Physician") ∧
    lookupKV (fallback_recommendation s) "urgency" =
      some (.jstr (assess_basic_urgency s)) ∧
    (matchesAnyMarker high_urgency_keywords s = true →
      assess_basic_urgency s = "High") ∧
    (matchesAnyMarker high_urgency_keywords s = false →
      matchesAnyMarker low_urgency_keywords s = true →
      assess_basic_urgency s = "Low") ∧
    (matchesAnyMarker high_urgency_keywords s = false →
      matchesAnyMarker low_urgency_keywords s = false →
      assess_basic_urgency s = "Medium") := by
  refine ⟨rfl, rfl, ?_, ?_, ?_⟩
  · intro hh
    by_cases hd : s.data = []
    · rw [string_eq_empty_of_data_nil hd] at hh
      exact absurd hh (by decide)
    · have hne : s.data.isEmpty = false := by
        cases hq : s.data
        · exact absurd hq hd
        · rfl
      simp [assess_basic_urgency, hne, hh]
  · intro hh hl
    by_cases hd : s.data = []
    · rw [string_eq_empty_of_data_nil hd] at hl
      exact absurd hl (by decide)
    · have hne : s.data.isEmpty = false := by
        cases hq : s.data
        · exact absurd hq hd
        · rfl
      simp [assess_basic_urgency, hne, hh, hl]
  · intro hh hl
    by_cases hd : s.data = []
    · rw [string_eq_empty_of_data_nil hd]
      decide
    · have hne : s.data.isEmpty = false := by
        cases hq : s.data
        · exact absurd hq hd
        · rfl
      simp [assess_basic_urgency, hne, hh, hl]

/-- Witness for claim C8 at concrete inputs. -/
theorem C8_fallback_generator_witness :
    assess_basic_urgency "I have Chest Pain now" = "High" ∧
    assess_basic_urgency "mild headache" = "Low" :=
  ⟨(C8_fallback_generator "I have Chest Pain now").2.2.1 (by decide),
   (C8_fallback_generator "mild headache").2.2.2.1 (by decide) (by decide)⟩

/-! Claim C1. -/

/-- Claim C1 as stated is false: for this raw response the substring from
the first opening brace to the last closing brace fails to parse, the
prefix ending at the nearest earlier closing brace parses successfully, yet
`_parse_response` fails with a parse error instead of recovering with an
incomplete record. -/
theorem C1_counterexample :
    jsonLoads (pyStrip
      ("\x7b\"specialist\": \"Cardiologist\", \"reasoning\": \"r\", \"urgency\": \"High\"\x7d\x7d" :
        String).data) = none ∧
    jsonLoads ((pyStrip
      ("\x7b\"specialist\": \"Cardiologist\", \"reasoning\": \"r\", \"urgency\": \"High\"\x7d\x7d" :
        String).data).dropLast) =
      some (.jobj [("specialist", .jstr "Cardiologist"), ("reasoning", .jstr "r"),
        ("urgency", .jstr "High")]) ∧
    parse_response
      "\x7b\"specialist\": \"Cardiologist\", \"reasoning\": \"r\", \"urgency\": \"High\"\x7d\x7d" =
      .error "Failed to parse LLM response as JSON" :=
  ⟨rfl, rfl, rfl⟩

/-- Claim C1, amended: when the substring from the first opening brace to
the last closing brace fails to parse as a structured record,
`_parse_response` fails immediately with the JSON-parse error; no
backward-scan recovery is attempted, no incomplete record is returned and
no truncation warning is appended. -/
theorem C1_parse_failure_is_fatal (response : String) (si ei : Nat)
    (hs : findCharIdx lbraceChar (pyStrip response.data) = some si)
    (he : rfindCharIdx rbraceChar (pyStrip response.data) = some ei)
    (hp : jsonLoads (((pyStrip response.data).take (ei + 1)).drop si) = none) :
    parse_response response = .error "Failed to parse LLM response as JSON" := by
  simp [parse_response, extractJson, hs, he, hp]

/-- Witness for the amended claim C1 at a concrete input. -/
theorem C1_parse_failure_is_fatal_witness :
    parse_response "\x7bbad\x7d" = .error "Failed to parse LLM response as JSON" :=
  C1_parse_failure_is_fatal "\x7bbad\x7d" 0 4 rfl rfl rfl

/-! Claim C2. -/

/-- Claim C2 as stated is false: this raw response parses into a record
missing the required field `reasoning`, and `_parse_response` fails with a
missing-field error instead of filling the field with `"Unknown"`. -/
theorem C2_counterexample :
    extractJson "\x7b\"specialist\": \"Cardiologist\", \"urgency\": \"High\"\x7d" =
      .ok (.jobj [("specialist", .jstr "Cardiologist"), ("urgency", .jstr "High")]) ∧
    lookupKV [("specialist", JValue.jstr "Cardiologist"), ("urgency", JValue.jstr "High")]
      "reasoning" = none ∧
    parse_response "\x7b\"specialist\": \"Cardiologist\", \"urgency\": \"High\"\x7d" =
      .error "Response validation failed: Missing or empty required field: reasoning" :=
  ⟨rfl, rfl, rfl⟩

/-- Claim C2, amended: when the raw response parses into a record missing
one of the required fields `specialist`, `reasoning`, `urgency`,
`_parse_response` fails with a missing-required-field error naming one of
them; no `"Unknown"` placeholder is substituted and no record is returned. -/
theorem C2_missing_required_field_fails (response : String)
    (fields : List (String × JValue))
    (hx : extractJson response = .ok (.jobj fields))
    (hm : lookupKV fields "specialist" = none ∨ lookupKV fields "reasoning" = none ∨
      lookupKV fields "urgency" = none) :
    ∃ f, f ∈ (["specialist", "reasoning", "urgency"] : List String) ∧
      parse_response response =
        .error ("Response validation failed: Missing or empty required field: " ++ f) := by
  have hpr : parse_response response = validateParsed fields := by
    simp [parse_response, hx]
  by_cases h1 : requiredOk fields "specialist" = true
  · by_cases h2 : requiredOk fields "reasoning" = true
    · by_cases h3 : requiredOk fields "urgency" = true
      · exfalso
        rcases hm with hm | hm | hm
        · rw [requiredOk_iff] at h1
          obtain ⟨v, hv, _⟩ := h1
          rw [hm] at hv
          cases hv
        · rw [requiredOk_iff] at h2
          obtain ⟨v, hv, _⟩ := h2
          rw [hm] at hv
          cases hv
        · rw [requiredOk_iff] at h3
          obtain ⟨v, hv, _⟩ := h3
          rw [hm] at hv
          cases hv
      · rw [Bool.not_eq_true] at h3
        refine ⟨"urgency", by simp, ?_⟩
        rw [hpr]
        have hr : validateParsed fields =
            .error "Response validation failed: Missing or empty required field: urgency" := by
          simp [validateParsed, h1, h2, h3]
        rw [hr]
        rfl
    · rw [Bool.not_eq_true] at h2
      refine ⟨"reasoning", by simp, ?_⟩
      rw [hpr]
      have hr : validateParsed fields =
          .error "Response validation failed: Missing or empty required field: reasoning" := by
        simp [validateParsed, h1, h2]
      rw [hr]
      rfl
  · rw [Bool.not_eq_true] at h1
    refine ⟨"specialist", by simp, ?_⟩
    rw [hpr]
    have hr : validateParsed fields =
        .error "Response validation failed: Missing or empty required field: specialist" := by
      simp [validateParsed, h1]
    rw [hr]
    rfl

/-- Witness for the amended claim C2 at a concrete input. -/
theorem C2_missing_required_field_fails_witness :
    ∃ f, f ∈ (["specialist", "reasoning", "urgency"] : List String) ∧
      parse_response "\x7b\"reasoning\": \"fine\"\x7d" =
        .error ("Response validation failed: Missing or empty required field: " ++ f) :=
  C2_missing_required_field_fails _ [("reasoning", .jstr "fine")] rfl (Or.inl rfl)

/-! Claim C9. -/

/-- Claim C9 as stated is false: this raw response parses into a record
whose urgency is present and not one of High/Medium/Low, yet
`_parse_response` fails (the record lacks the required `specialist` field)
instead of returning the record with urgency `"Medium"`. -/
theorem C9_counterexample :
    extractJson "\x7b\"urgency\": \"Severe\"\x7d" =
      .ok (.jobj [("urgency", .jstr "Severe")]) ∧
    urgencyValid (lookupKV [("urgency", JValue.jstr "Severe")] "urgency") = false ∧
    parse_response "\x7b\"urgency\": \"Severe\"\x7d" =
      .error "Response validation failed: Missing or empty required field: specialist" :=
  ⟨rfl, rfl, rfl⟩

/-- Claim C9, amended: when the raw response parses into a record whose
required fields `specialist`, `reasoning`, `urgency` are all present and
non-empty, and whose urgency is not one of High/Medium/Low,
`_parse_response` succeeds and returns the record with urgency overwritten
to `"Medium"`, other keys unchanged. -/
theorem C9_invalid_urgency_coerced (response : String) (fields : List (String × JValue))
    (hx : extractJson response = .ok (.jobj fields))
    (h1 : requiredOk fields "specialist" = true)
    (h2 : requiredOk fields "reasoning" = true)
    (h3 : requiredOk fields "urgency" = true)
    (hu : urgencyValid (lookupKV fields "urgency") = false) :
    parse_response response =
      .ok (fillOptional (insertKV fields "urgency" (.jstr "Medium"))) ∧
    lookupKV (fillOptional (insertKV fields "urgency" (.jstr "Medium"))) "urgency" =
      some (.jstr "Medium") ∧
    ∀ k, k ≠ "urgency" → k ≠ "alternative" → k ≠ "additional_notes" →
      lookupKV (fillOptional (insertKV fields "urgency" (.jstr "Medium"))) k =
        lookupKV fields k := by
  have hpr : parse_response response = validateParsed fields := by
    simp [parse_response, hx]
  have hv : validateParsed fields = .ok (fillOptional (coerceUrgency fields)) :=
    validateParsed_eq_ok fields h1 h2 h3
  rw [coerceUrgency_invalid fields hu] at hv
  refine ⟨by rw [hpr, hv], ?_, ?_⟩
  · rw [lookupKV_fillOptional_other _ _ (by decide) (by decide), lookupKV_insertKV_self]
  · intro k hk1 hk2 hk3
    rw [lookupKV_fillOptional_other _ _ hk2 hk3,
      lookupKV_insertKV_ne _ _ _ _ (fun he => hk1 he.symm)]

/-- Witness for the amended claim C9 at a concrete input. -/
theorem C9_invalid_urgency_coerced_witness :
    parse_response
      "\x7b\"specialist\": \"Cardiologist\", \"reasoning\": \"r\", \"urgency\": \"Severe\"\x7d" =
      .ok (fillOptional (insertKV
        [("specialist", JValue.jstr "Cardiologist"), ("reasoning", JValue.jstr "r"),
         ("urgency", JValue.jstr "Severe")] "urgency" (.jstr "Medium"))) ∧
    lookupKV (fillOptional (insertKV
        [("specialist", JValue.jstr "Cardiologist"), ("reasoning", JValue.jstr "r"),
         ("urgency", JValue.jstr "Severe")] "urgency" (.jstr "Medium"))) "urgency" =
      some (.jstr "Medium") ∧
    ∀ k, k ≠ "urgency" → k ≠ "alternative" → k ≠ "additional_notes" →
      lookupKV (fillOptional (insertKV
        [("specialist", JValue.jstr "Cardiologist"), ("reasoning", JValue.jstr "r"),
         ("urgency", JValue.jstr "Severe")] "urgency" (.jstr "Medium"))) k =
        lookupKV [("specialist", JValue.jstr "Cardiologist"), ("reasoning", JValue.jstr "r"),
         ("urgency", JValue.jstr "Severe")] k :=
  C9_invalid_urgency_coerced _
    [("specialist", JValue.jstr "Cardiologist"), ("reasoning", JValue.jstr "r"),
     ("urgency", JValue.jstr "Severe")] rfl rfl rfl rfl rfl

/-! Claim C10. -/

/-- Claim C10: whenever `_parse_response` succeeds, the returned record
contains all five keys, its `specialist` and `reasoning` values are
non-empty (truthy), and its urgency is one of High, Medium, Low. -/
theorem C10_parse_success_invariants (response : String) (out : List (String × JValue))
    (h : parse_response response = .ok out) :
    (∃ v, lookupKV out "specialist" = some v ∧ truthy v = true) ∧
    (∃ v, lookupKV out "reasoning" = some v ∧ truthy v = true) ∧
    (lookupKV out "urgency" = some (.jstr "High") ∨
      lookupKV out "urgency" = some (.jstr "Medium") ∨
      lookupKV out "urgency" = some (.jstr "Low")) ∧
    (lookupKV out "alternative").isSome = true ∧
    (lookupKV out "additional_notes").isSome = true := by
  obtain ⟨fs, hx, hv⟩ := parse_response_ok_inv response out h
  obtain ⟨h1, h2, h3, hout⟩ := validateParsed_ok_inv fs out hv
  subst hout
  refine ⟨?_, ?_, ?_, fillOptional_alternative_isSome _, fillOptional_notes_isSome _⟩
  · rw [requiredOk_iff] at h1
    obtain ⟨v, hv1, hv2⟩ := h1
    exact ⟨v, by
      rw [lookupKV_fillOptional_other _ _ (by decide) (by decide),
        lookupKV_coerceUrgency_other _ _ (by decide), hv1], hv2⟩
  · rw [requiredOk_iff] at h2
    obtain ⟨v, hv1, hv2⟩ := h2
    exact ⟨v, by
      rw [lookupKV_fillOptional_other _ _ (by decide) (by decide),
        lookupKV_coerceUrgency_other _ _ (by decide), hv1], hv2⟩
  · rcases coerceUrgency_result fs with hu | hu | hu
    · exact Or.inl (by
        rw [lookupKV_fillOptional_other _ _ (by decide) (by decide), hu])
    · exact Or.inr (Or.inl (by
        rw [lookupKV_fillOptional_other _ _ (by decide) (by decide), hu]))
    · exact Or.inr (Or.inr (by
        rw [lookupKV_fillOptional_other _ _ (by decide) (by decide), hu]))

/-- Witness for claim C10 at a concrete input. -/
theorem C10_parse_success_invariants_witness :
    (∃ v, lookupKV [("specialist", JValue.jstr "Cardiologist"),
      ("reasoning", JValue.jstr "chest pain"), ("urgency", JValue.jstr "High"),
      ("alternative", JValue.jstr ""), ("additional_notes", JValue.jstr "")]
      "specialist" = some v ∧ truthy v = true) ∧
    (∃ v, lookupKV [("specialist", JValue.jstr "Cardiologist"),
      ("reasoning", JValue.jstr "chest pain"), ("urgency", JValue.jstr "High"),
      ("alternative", JValue.jstr ""), ("additional_notes", JValue.jstr "")]
      "reasoning" = some v ∧ truthy v = true) ∧
    (lookupKV [("specialist", JValue.jstr "Cardiologist"),
      ("reasoning", JValue.jstr "chest pain"), ("urgency", JValue.jstr "High"),
      ("alternative", JValue.jstr ""), ("additional_notes", JValue.jstr "")]
      "urgency" = some (.jstr "High") ∨
     lookupKV [("specialist", JValue.jstr "Cardiologist"),
      ("reasoning", JValue.jstr "chest pain"), ("urgency", JValue.jstr "High"),
      ("alternative", JValue.jstr ""), ("additional_notes", JValue.jstr "")]
      "urgency" = some (.jstr "Medium") ∨
     lookupKV [("specialist", JValue.jstr "Cardiologist"),
      ("reasoning", JValue.jstr "chest pain"), ("urgency", JValue.jstr "High"),
      ("alternative", JValue.jstr ""), ("additional_notes", JValue.jstr "")]
      "urgency" = some (.jstr "Low")) ∧
    (lookupKV [("specialist", JValue.jstr "Cardiologist"),
      ("reasoning", JValue.jstr "chest pain"), ("urgency", JValue.jstr "High"),
      ("alternative", JValue.jstr ""), ("additional_notes", JValue.jstr "")]
      "alternative").isSome = true ∧
    (lookupKV [("specialist", JValue.jstr "Cardiologist"),
      ("reasoning", JValue.jstr "chest pain"), ("urgency", JValue.jstr "High"),
      ("alternative", JValue.jstr ""), ("additional_notes", JValue.jstr "")]
      "additional_notes").isSome = true :=
  C10_parse_success_invariants
    "Here is my recommendation: \x7b\"specialist\": \"Cardiologist\", \"reasoning\": \"chest pain\", \"urgency\": \"High\"\x7d"
    [("specialist", JValue.jstr "Cardiologist"), ("reasoning", JValue.jstr "chest pain"),
     ("urgency", JValue.jstr "High"), ("alternative", JValue.jstr ""),
     ("additional_notes", JValue.jstr "")]
    rfl

/-! Claim C5 and its helpers. -/

/-- The length of `String.mk` is the length of the list. -/
theorem string_length_mk (l : List Char) : (String.mk l).length = l.length := rfl

/-- Truncation keeps the input within 2000 characters. -/
theorem truncateLong_length_le (l : List Char) : (truncateLong l).length ≤ 2000 := by
  unfold truncateLong
  split_ifs with h
  · simp only [List.length_append, List.length_take, List.length_cons, List.length_nil]
    omega
  · omega

/-- An accepted `validation.py` result returns the collapsed strip, and the
stripped input passed the 2000-character bound. -/
theorem validate_valid_shape (s : String)
    (h : (validate_symptom_input s).valid = true) :
    (validate_symptom_input s).cleaned_input = String.mk (collapseWs (pyStrip s.data)) ∧
    ¬ 2000 < (pyStrip s.data).length := by
  simp only [validate_symptom_input] at h ⊢
  split_ifs at h ⊢
  all_goals simp_all

/-- `dropWhile isPySpace` keeps a replicated letter intact. -/
theorem dropWhile_replicate_letter (n : Nat) :
    (List.replicate n 'a').dropWhile isPySpace = List.replicate n 'a' := by
  cases n with
  | zero => rfl
  | succ m =>
    rw [List.replicate_succ, List.dropWhile_cons]
    have ha : isPySpace 'a' = false := by decide
    rw [ha]
    simp

/-- Stripping the 2001-letter input is the identity. -/
theorem pyStrip_longSymptomText :
    pyStrip longSymptomText.data = List.replicate 2001 'a' := by
  have hdata : longSymptomText.data = List.replicate 2001 'a' := rfl
  rw [hdata]
  unfold pyStrip
  rw [dropWhile_replicate_letter, List.reverse_replicate, dropWhile_replicate_letter,
    List.reverse_replicate]

/-- The run length at the head of a replicated block absorbs the block. -/
theorem runLen_replicate_append (c : Char) (m : Nat) (rest : List Char) :
    runLen c (List.replicate m c ++ rest) = m + runLen c rest := by
  induction m with
  | zero => simp
  | succ k ih =>
    rw [List.replicate_succ, List.cons_append]
    show (if c = c then runLen c (List.replicate k c ++ rest) + 1 else 0) =
      (k + 1) + runLen c rest
    rw [if_pos rfl, ih]
    omega

/-- A replicated block of at least `n` non-newline characters is a run of at
least `n`. -/
theorem hasRunGe_of_replicate (n k : Nat) (c : Char) (rest : List Char)
    (hc : c ≠ Char.ofNat 10) (hk : 1 ≤ k) (hn : n ≤ k) :
    hasRunGe n (List.replicate k c ++ rest) = true := by
  obtain ⟨m, rfl⟩ : ∃ m, k = m + 1 := ⟨k - 1, by omega⟩
  rw [List.replicate_succ, List.cons_append]
  simp only [hasRunGe, runLen_replicate_append]
  have h1 : n ≤ 1 + (m + runLen c rest) := by omega
  simp [hc, h1]

/-- The `llm_handler` validator does not reject the 2001-character input for
its length: it truncates it, and here the truncated text (a run of 1997
letters) trips the downstream repetition check instead. -/
theorem sanitize_longSymptomText :
    validate_and_sanitize_input longSymptomText =
      .error "Please avoid excessive repetition of characters in your symptom description" := by
  have hne : longSymptomText.data.isEmpty = false := rfl
  have hlen : (pyStrip longSymptomText.data).length = 2001 := by
    rw [pyStrip_longSymptomText, List.length_replicate]
  have htr : truncateLong (pyStrip longSymptomText.data) =
      List.replicate 1997 'a' ++ ['.', '.', '.'] := by
    rw [pyStrip_longSymptomText]
    unfold truncateLong
    rw [if_pos (by rw [List.length_replicate]; omega), List.take_replicate]
    have hmin : min 1997 2001 = 1997 := by omega
    rw [hmin]
  have h6 : hasRunGe 6 (List.replicate 1997 'a' ++ ['.', '.', '.']) = true :=
    hasRunGe_of_replicate 6 1997 'a' _ (by decide) (by omega) (by omega)
  simp only [validate_and_sanitize_input]
  rw [if_neg (by simp [hne]), if_neg (by rw [hlen]; omega),
    if_neg (by rw [hlen]; omega), htr]
  simp only [sanitizeCleaned]
  rw [if_pos h6]

/-- Claim C5, amended: in both validator variants every accepted cleaned
input has length at most 2000; `validation.py` rejects trimmed input longer
than 2000 characters with the too-long message, while the `llm_handler`
variant instead truncates it to its first 1997 characters plus an ellipsis
and passes the truncated text downstream to the remaining checks; and the
lower bound 5 holds only for the trimmed raw input, not for the returned
cleaned input — whitespace collapsing happens after the length check, so
accepted cleaned inputs shorter than 5 characters exist. -/
theorem C5_length_policy :
    (∀ s : String, (validate_symptom_input s).valid = true →
      (validate_symptom_input s).cleaned_input.length ≤ 2000) ∧
    (∀ s : String, 2000 < (pyStrip s.data).length →
      validate_symptom_input s =
        ⟨false, "", "Description is too long. Keep it under 2000 characters."⟩) ∧
    (∀ s t : String, validate_and_sanitize_input s = .ok t → t.length ≤ 2000) ∧
    (∀ s : String, 2000 < (pyStrip s.data).length →
      validate_and_sanitize_input s =
        sanitizeCleaned ((pyStrip s.data).take 1997 ++ ['.', '.', '.'])) ∧
    (∃ s : String, (validate_symptom_input s).valid = true ∧
      (validate_symptom_input s).cleaned_input.length < 5) := by
  refine ⟨?_, ?_, ?_, ?_, ⟨"a    b", by decide, by decide⟩⟩
  · intro s h
    obtain ⟨hc, hlen⟩ := validate_valid_shape s h
    rw [hc, string_length_mk]
    exact le_trans (collapseWs_length_le _) (by omega)
  · intro s h
    simp only [validate_symptom_input]
    rw [if_neg (by omega : ¬ (pyStrip s.data).length = 0),
      if_neg (by omega : ¬ (pyStrip s.data).length < 5), if_pos h]
  · intro s t h
    simp only [validate_and_sanitize_input, sanitizeCleaned] at h
    split_ifs at h
    have ht := (Except.ok.inj h).symm
    subst ht
    rw [string_length_mk]
    refine le_trans (pyStrip_length_le _) (le_trans (collapseWs_length_le _) ?_)
    rw [List.length_map]
    exact le_trans (collapseWs_length_le _) (truncateLong_length_le _)
  · intro s h
    have hne : s.data.isEmpty = false := by
      cases hd : s.data
      · rw [hd] at h
        exact absurd h (by decide)
      · rfl
    simp only [validate_and_sanitize_input]
    rw [if_neg (by simp [hne]), if_neg (by omega : ¬ (pyStrip s.data).length = 0),
      if_neg (by omega : ¬ (pyStrip s.data).length < 5)]
    unfold truncateLong
    rw [if_pos h]

/-- Claim C5 as stated is false in both directions it asserts:
`validation.py` accepts the 6-character input `"a    b"` and returns a
cleaned input of length 3, below the claimed lower bound 5; and the
`llm_handler` validator does not reject the 2001-character trimmed input
with a too-long error — it truncates it and passes the truncated text
downstream, where the repetition check rejects it instead. -/
theorem C5_counterexample :
    validate_symptom_input "a    b" = ⟨true, "a b", ""⟩ ∧
    ("a b" : String).length < 5 ∧
    (pyStrip longSymptomText.data).length = 2001 ∧
    validate_and_sanitize_input longSymptomText =
      .error "Please avoid excessive repetition of characters in your symptom description" :=
  ⟨by decide, by decide,
   by rw [pyStrip_longSymptomText, List.length_replicate],
   sanitize_longSymptomText⟩

/-- Witness for the amended claim C5 at concrete inputs. -/
theorem C5_length_policy_witness :
    (validate_symptom_input "strong headache").cleaned_input.length ≤ 2000 ∧
    validate_symptom_input longSymptomText =
      ⟨false, "", "Description is too long. Keep it under 2000 characters."⟩ ∧
    ("headache now" : String).length ≤ 2000 ∧
    validate_and_sanitize_input longSymptomText =
      sanitizeCleaned ((pyStrip longSymptomText.data).take 1997 ++ ['.', '.', '.']) :=
  ⟨C5_length_policy.1 "strong headache" (by decide),
   C5_length_policy.2.1 longSymptomText
     (by rw [pyStrip_longSymptomText, List.length_replicate]; omega),
   C5_length_policy.2.2.1 "headache now" "headache now" rfl,
   C5_length_policy.2.2.2.1 longSymptomText
     (by rw [pyStrip_longSymptomText, List.length_replicate]; omega)⟩

/-! Claim C6 and its helpers. -/

/-- Every character of the spec's claimed allow-list is accepted by the
`main.py` allow-list (spaces via `\s`, the question mark explicitly). -/
theorem claimChar_allowedMain {c : Char} (h : isClaimChar c = true) :
    isAllowedMain c = true := by
  simp only [isClaimChar, Bool.or_eq_true, decide_eq_true_eq] at h
  simp only [isAllowedMain, isAllowedValidation, Bool.or_eq_true, decide_eq_true_eq]
  rcases h with (((h | h) | h) | h) | h
  · tauto
  · tauto
  · subst h
    have hs : isPySpace ' ' = true := by decide
    tauto
  · tauto
  · tauto

/-- Claim C6, amended: in the `main.py` validator the property holds —
given that the earlier emptiness, length and repetition checks pass,
rejection with the invalid-characters error happens exactly when some
character of the trimmed input is outside its allow-list (which contains the
question mark), and input made only of the claimed allow-listed characters
is never rejected for invalid characters.  In the `validation.py` variant
the rejection is likewise exactly a character outside its own allow-list,
but that allow-list omits the question mark, so it rejects any trimmed
input containing `?` with its invalid-characters message. -/
theorem C6_charset_policy :
    (∀ s : String, (pyStrip s.data).length ≠ 0 → ¬ (pyStrip s.data).length < 5 →
      ¬ 2000 < (pyStrip s.data).length →
      has_excessive_repetition (pyStrip s.data) = false →
      ((validate_symptom_input_main s).error_type = "invalid_characters" ↔
        (pyStrip s.data).all isAllowedMain = false)) ∧
    (∀ s : String, s.data.all isClaimChar = true →
      (validate_symptom_input_main s).error_type ≠ "invalid_characters") ∧
    (∀ s : String, '?' ∈ pyStrip s.data → ¬ (pyStrip s.data).length < 5 →
      ¬ 2000 < (pyStrip s.data).length →
      has_excessive_repetition (pyStrip s.data) = false →
      validate_symptom_input s = ⟨false, "", "Use only standard characters."⟩) ∧
    (∀ s : String, (pyStrip s.data).length ≠ 0 → ¬ (pyStrip s.data).length < 5 →
      ¬ 2000 < (pyStrip s.data).length →
      has_excessive_repetition (pyStrip s.data) = false →
      ((validate_symptom_input s).error_message = "Use only standard characters." ↔
        (pyStrip s.data).all isAllowedValidation = false)) := by
  refine ⟨?_, ?_, ?_, ?_⟩
  · intro s h1 h2 h3 h4
    have hrep : ¬ has_excessive_repetition (pyStrip s.data) = true := by simp [h4]
    simp only [validate_symptom_input_main]
    rw [if_neg h1, if_neg h2, if_neg h3, if_neg hrep]
    by_cases hall : (pyStrip s.data).all isAllowedMain = true
    · rw [if_neg (by simp [hall])]
      by_cases halpha : ((collapseWs (pyStrip s.data)).any Char.isAlpha) = true
      · rw [if_neg (by simp [halpha])]
        constructor
        · intro hh
          exact absurd (show ("" : String) = "invalid_characters" from hh) (by decide)
        · intro hh
          rw [hall] at hh
          cases hh
      · rw [if_pos (by rw [Bool.not_eq_true] at halpha; rw [halpha]; rfl)]
        constructor
        · intro hh
          exact absurd
            (show ("no_meaningful_content" : String) = "invalid_characters" from hh)
            (by decide)
        · intro hh
          rw [hall] at hh
          cases hh
    · rw [Bool.not_eq_true] at hall
      rw [if_pos (by simp [hall])]
      simp [hall]
  · intro s hall
    have hall2 : (pyStrip s.data).all isClaimChar = true := all_pyStrip hall
    have hmain : (pyStrip s.data).all isAllowedMain = true := by
      rw [List.all_eq_true] at hall2 ⊢
      exact fun c hc => claimChar_allowedMain (hall2 c hc)
    simp only [validate_symptom_input_main]
    by_cases g1 : (pyStrip s.data).length = 0
    · rw [if_pos g1]
      decide
    · rw [if_neg g1]
      by_cases g2 : (pyStrip s.data).length < 5
      · rw [if_pos g2]
        decide
      · rw [if_neg g2]
        by_cases g3 : 2000 < (pyStrip s.data).length
        · rw [if_pos g3]
          decide
        · rw [if_neg g3]
          by_cases g4 : has_excessive_repetition (pyStrip s.data) = true
          · rw [if_pos g4]
            decide
          · rw [if_neg g4, if_neg (by simp [hmain])]
            by_cases g6 : ((collapseWs (pyStrip s.data)).any Char.isAlpha) = true
            · rw [if_neg (by simp [g6])]
              show ("" : String) ≠ "invalid_characters"
              decide
            · rw [if_pos (by rw [Bool.not_eq_true] at g6; rw [g6]; rfl)]
              decide
  · intro s hq h2 h3 h4
    have hrep : ¬ has_excessive_repetition (pyStrip s.data) = true := by simp [h4]
    have hall : (pyStrip s.data).all isAllowedValidation = false := by
      rw [← Bool.not_eq_true]
      intro hcon
      rw [List.all_eq_true] at hcon
      exact absurd (hcon '?' hq) (by decide)
    simp only [validate_symptom_input]
    rw [if_neg (by omega : ¬ (pyStrip s.data).length = 0), if_neg h2, if_neg h3,
      if_neg hrep, if_pos (by simp [hall])]
  · intro s h1 h2 h3 h4
    have hrep : ¬ has_excessive_repetition (pyStrip s.data) = true := by simp [h4]
    simp only [validate_symptom_input]
    rw [if_neg h1, if_neg h2, if_neg h3, if_neg hrep]
    by_cases hall : (pyStrip s.data).all isAllowedValidation = true
    · rw [if_neg (by simp [hall])]
      by_cases halpha : ((collapseWs (pyStrip s.data)).any Char.isAlpha) = true
      · rw [if_neg (by simp [halpha])]
        constructor
        · intro hh
          exact absurd
            (show ("" : String) = "Use only standard characters." from hh) (by decide)
        · intro hh
          rw [hall] at hh
          cases hh
      · rw [if_pos (by rw [Bool.not_eq_true] at halpha; rw [halpha]; rfl)]
        constructor
        · intro hh
          exact absurd
            (show ("Include descriptive text about your symptoms." : String) =
              "Use only standard characters." from hh)
            (by decide)
        · intro hh
          rw [hall] at hh
          cases hh
    · rw [Bool.not_eq_true] at hall
      rw [if_pos (by simp [hall])]
      simp [hall]

/-- Claim C6 as stated is false: `"hurts?"` consists only of characters of
the claimed allow-list (including the question mark), yet `validation.py`
rejects it for invalid characters — its allow-list regex omits `?`. -/
theorem C6_counterexample :
    ("hurts?" : String).data.all isClaimChar = true ∧
    validate_symptom_input "hurts?" = ⟨false, "", "Use only standard characters."⟩ :=
  ⟨by decide, by decide⟩

/-- Witness for the amended claim C6 at concrete inputs. -/
theorem C6_charset_policy_witness :
    (validate_symptom_input_main "a < b ouch").error_type = "invalid_characters" ∧
    (validate_symptom_input_main "hurts? a lot").error_type ≠ "invalid_characters" ∧
    validate_symptom_input "hurts?" = ⟨false, "", "Use only standard characters."⟩ ∧
    (validate_symptom_input "a < b ouch").error_message = "Use only standard characters." :=
  ⟨(C6_charset_policy.1 "a < b ouch" (by decide) (by decide) (by decide)
      (by decide)).mpr (by decide),
   C6_charset_policy.2.1 "hurts? a lot" (by decide),
   C6_charset_policy.2.2.1 "hurts?" (by decide) (by decide) (by decide) (by decide),
   (C6_charset_policy.2.2.2 "a < b ouch" (by decide) (by decide) (by decide)
      (by decide)).mpr (by decide)⟩

/-! Claim C7. -/

/-- Claim C7, amended: the `validation.py` validator rejects (given the
emptiness and length checks pass) every input whose trimmed text contains a
run of at least 5 identical consecutive characters, and every input whose
trimmed text repeats a word of length greater than 2 more than 10 times,
with its excessive-repetition message; the `llm_handler` variant rejects
only runs of at least 6 and performs no word-repetition check, accepting an
eleven-fold repeated word. -/
theorem C7_repetition_policy :
    (∀ s : String, ¬ (pyStrip s.data).length < 5 → ¬ 2000 < (pyStrip s.data).length →
      hasRunGe 5 (pyStrip s.data) = true →
      validate_symptom_input s = ⟨false, "", "Please avoid excessive repetition."⟩) ∧
    (∀ s : String, ¬ (pyStrip s.data).length < 5 → ¬ 2000 < (pyStrip s.data).length →
      hasWordRep (pyStrip s.data) = true →
      validate_symptom_input s = ⟨false, "", "Please avoid excessive repetition."⟩) ∧
    (∀ s : String, ¬ (pyStrip s.data).length < 5 → ¬ 2000 < (pyStrip s.data).length →
      hasRunGe 6 (pyStrip s.data) = true →
      validate_and_sanitize_input s =
        .error "Please avoid excessive repetition of characters in your symptom description") ∧
    hasWordRep repeatedWordText.data = true ∧
    validate_and_sanitize_input repeatedWordText = .ok repeatedWordText := by
  refine ⟨?_, ?_, ?_, by decide, rfl⟩
  · intro s h2 h3 hr
    simp only [validate_symptom_input]
    rw [if_neg (by omega : ¬ (pyStrip s.data).length = 0), if_neg h2, if_neg h3,
      if_pos (by simp [has_excessive_repetition, hr] :
        has_excessive_repetition (pyStrip s.data) = true)]
  · intro s h2 h3 hw
    simp only [validate_symptom_input]
    rw [if_neg (by omega : ¬ (pyStrip s.data).length = 0), if_neg h2, if_neg h3,
      if_pos (by simp [has_excessive_repetition, hw] :
        has_excessive_repetition (pyStrip s.data) = true)]
  · intro s h2 h3 hr
    have htr : truncateLong (pyStrip s.data) = pyStrip s.data := by
      simp [truncateLong, h3]
    have hne : s.data.isEmpty = false := by
      cases hd : s.data
      · rw [hd] at h2
        exact absurd (by decide) h2
      · rfl
    simp only [validate_and_sanitize_input, sanitizeCleaned, htr]
    rw [if_neg (by simp [hne]), if_neg (by omega : ¬ (pyStrip s.data).length = 0),
      if_neg h2, if_pos hr]

/-- Claim C7 as stated is false: `"aaaaa bcd"` contains a run of exactly 5
identical consecutive characters and passes the emptiness and length
checks, yet the `llm_handler` validator accepts it — its regex requires a
run of at least 6. -/
theorem C7_counterexample :
    hasRunGe 5 (pyStrip ("aaaaa bcd" : String).data) = true ∧
    validate_and_sanitize_input "aaaaa bcd" = .ok "aaaaa bcd" :=
  ⟨by decide, rfl⟩

/-- Witness for the amended claim C7 at concrete inputs. -/
theorem C7_repetition_policy_witness :
    validate_symptom_input "zzzzzz hurts" =
      ⟨false, "", "Please avoid excessive repetition."⟩ ∧
    validate_symptom_input repeatedWordText =
      ⟨false, "", "Please avoid excessive repetition."⟩ ∧
    validate_and_sanitize_input "zzzzzzz ow" =
      .error "Please avoid excessive repetition of characters in your symptom description" :=
  ⟨C7_repetition_policy.1 "zzzzzz hurts" (by decide) (by decide) (by decide),
   C7_repetition_policy.2.1 repeatedWordText (by decide) (by decide) (by decide),
   C7_repetition_policy.2.2.1 "zzzzzzz ow" (by decide) (by decide) (by decide)⟩

end ConsentRight
